import Mathlib

/-!
Shallow embedding of the DiscordCoachBot sources (craft.py, state.py,
scheduler.py, main.py). Pure string manipulation is translated directly;
effectful code (HTTP publish, chat delivery, message handling) is modelled
by passing the outcome of each external call as an explicit parameter and
returning the resulting conversation state together with the list of
outbound chat messages produced by the call.
-/

/-- Bool test that a character list is a prefix of another (character lists
stand for Python strings). -/
def startsWithChars : List Char → List Char → Bool
  | [], _ => true
  | _ :: _, [] => false
  | a :: as, b :: bs => a == b && startsWithChars as bs

/-- Bool test that `pat` occurs as a contiguous substring of the second list:
Python's `pat in s` on strings. -/
def hasInfixChars (pat : List Char) : List Char → Bool
  | [] => pat.isEmpty
  | c :: rest => startsWithChars pat (c :: rest) || hasInfixChars pat rest

/-- Python `pat in s` (substring containment) on `String`. -/
def strContains (s pat : String) : Bool := hasInfixChars pat.data s.data

/-- Python `str.lower()` (the keywords involved are ASCII, where
`Char.toLower` agrees with Python). -/
def pyLower (s : String) : String := String.mk (s.data.map Char.toLower)

/-- Python `str.strip()`: drop leading and trailing whitespace. -/
def pyStrip (s : String) : String :=
  String.mk (((s.data.dropWhile Char.isWhitespace).reverse.dropWhile
    Char.isWhitespace).reverse)

/-- Python `s.split()[0]` for a string with no leading whitespace: the
characters up to the first whitespace character. -/
def headToken (s : String) : String :=
  String.mk (s.data.takeWhile (fun c => !c.isWhitespace))

/-- Python truthiness of an optional string drawn from `os.getenv`:
`not s` is true when the variable is absent or the empty string. -/
def pyFalsy : Option String → Bool
  | none => true
  | some s => s == ""

/-- Morning completion-status keyword scan inlined in
`craft.format_check_in_content` (lines 39-46 of craft.py). -/
def morning_status (content : String) : String :=
  let content_lower := pyLower content
  if strContains content_lower "yes" && !(strContains content_lower "no") then "Yes"
  else if strContains content_lower "partial" then "Partial"
  else if strContains content_lower "no" then "No"
  else ""

/-- Evening workout-status keyword scan inlined in
`craft.format_check_in_content` (lines 55-60 of craft.py). -/
def evening_status (content : String) : String :=
  let content_lower := pyLower content
  if strContains content_lower "yes" && !(strContains content_lower "no") then "Yes"
  else if strContains content_lower "no" then "No"
  else ""

/-- `craft.format_check_in_content(content, check_in_type)`. The wall-clock
timestamp produced by `datetime.now().strftime` is passed in as the
`timestamp` parameter; everything else is translated directly. -/
def format_check_in_content (timestamp content check_in_type : String) : String :=
  if check_in_type = "morning" then
    let completion_status := morning_status content
    let header := "## Morning Check-in (" ++ timestamp ++ ")\n"
    let withStatus :=
      if completion_status = "" then header
      else header ++ "**Routine completion:** " ++ completion_status ++ "\n"
    withStatus ++ content
  else if check_in_type = "evening" then
    let workout_status := evening_status content
    let header := "## Exercise Check-in (" ++ timestamp ++ ")\n"
    let withStatus :=
      if workout_status = "" then header
      else header ++ "**Workout:** " ++ workout_status ++ "\n"
    withStatus ++ content
  else content

/-- One block of the Craft append request body built in
`craft.write_to_daily_note`. -/
structure CraftBlock where
  type : String
  markdown : String
deriving DecidableEq

/-- The JSON request body built in `craft.write_to_daily_note`: a single
text block appended at position end of today's note. -/
structure CraftRequest where
  blocks : List CraftBlock
  position_position : String
  position_date : String
deriving DecidableEq

/-- Request construction in `craft.write_to_daily_note` (lines 90-102). -/
def buildCraftRequest (formatted_content : String) : CraftRequest :=
  { blocks := [{ type := "text", markdown := formatted_content }]
    position_position := "end"
    position_date := "today" }

/-- Outcome of the single HTTP POST issued by `craft.write_to_daily_note`:
a response with a status code, a timeout (`httpx.TimeoutException`), a
transport error (`httpx.RequestError`), or any other exception. -/
inductive HttpOutcome where
  | response (status : Nat) (text : String)
  | timeout
  | requestError (msg : String)
  | unexpectedError (msg : String)
deriving DecidableEq

/-- `craft.write_to_daily_note(content, check_in_type)`. The module-level
`CRAFT_API_URL` and the outcome of the HTTP call are explicit parameters;
the function returns the Python bool. Missing or empty `CRAFT_API_URL`
returns False at call time (lines 84-86); a response is success exactly for
status codes 200 and 201 (line 114); the three except clauses (timeout,
request error, any other exception) all return False (lines 124-132). -/
def write_to_daily_note (craft_api_url : Option String) (outcome : HttpOutcome)
    (timestamp content check_in_type : String) : Bool :=
  if pyFalsy craft_api_url then false
  else
    let formatted_content := format_check_in_content timestamp content check_in_type
    let _request := buildCraftRequest formatted_content
    match outcome with
    | HttpOutcome.response status _ => status == 200 || status == 201
    | HttpOutcome.timeout => false
    | HttpOutcome.requestError _ => false
    | HttpOutcome.unexpectedError _ => false

/-- The environment variables read at module import time by main.py,
scheduler.py and craft.py. -/
structure Env where
  DISCORD_BOT_TOKEN : Option String
  DISCORD_USER_ID : Option String
  CRAFT_API_URL : Option String
  TIMEZONE : Option String
deriving DecidableEq

/-- Accumulator for decimal digit parsing. -/
def parseDigits : Nat → List Char → Option Nat
  | acc, [] => some acc
  | acc, c :: cs =>
    if c.isDigit then parseDigits (10 * acc + (c.toNat - 48)) cs else none

/-- Python `int(s)` on a decimal string (optional leading minus sign);
`none` models the `ValueError` raised on non-numeric input. -/
def pyInt? (s : String) : Option Int :=
  match s.data with
  | [] => none
  | '-' :: c :: cs => (parseDigits 0 (c :: cs)).map (fun n => -(n : Int))
  | cs => (parseDigits 0 cs).map (fun n => (n : Int))

/-- Module-level startup validation: importing main.py first runs
scheduler.py's module body (DISCORD_USER_ID presence and integer checks,
scheduler.py lines 22-34), then main.py's own checks (DISCORD_BOT_TOKEN
and DISCORD_USER_ID presence, main.py lines 29-35). Each failed check is a
raised ValueError, modelled as `Except.error` with the message; on success
the parsed user id is returned. craft.py's module body reads CRAFT_API_URL
without validating it. -/
def startup (env : Env) : Except String Int :=
  if pyFalsy env.DISCORD_USER_ID then
    Except.error ("DISCORD_USER_ID environment variable is not set. " ++
      "Please set it in your .env file or Railway environment variables.")
  else
    match pyInt? (env.DISCORD_USER_ID.getD "") with
    | none =>
      Except.error ("DISCORD_USER_ID must be a valid integer, got: " ++
        env.DISCORD_USER_ID.getD "")
    | some uid =>
      if pyFalsy env.DISCORD_BOT_TOKEN then
        Except.error "DISCORD_BOT_TOKEN not found in environment variables"
      else if pyFalsy env.DISCORD_USER_ID then
        Except.error "DISCORD_USER_ID not found in environment variables"
      else Except.ok uid

/-- The shared conversation state dictionary of state.py: which check-in
kind, if any, the bot is waiting for, and the timestamp of the last arm
(timestamps modelled as naturals). -/
structure ConversationState where
  waiting_for : Option String
  last_check_in_time : Option Nat
deriving DecidableEq

/-- Initial value of state.py's `conversation_state` dictionary. -/
def conversation_state : ConversationState :=
  { waiting_for := none, last_check_in_time := none }

/-- `state.set_waiting_for_checkin(check_in_type)`: arm the wait flag and
record the current time (`datetime.now()` passed in as `now`). -/
def set_waiting_for_checkin (now : Nat) (check_in_type : String)
    (_s : ConversationState) : ConversationState :=
  { waiting_for := some check_in_type, last_check_in_time := some now }

/-- `state.clear_waiting_state()`: reset only the `waiting_for` field. -/
def clear_waiting_state (s : ConversationState) : ConversationState :=
  { s with waiting_for := none }

/-- `state.get_waiting_state()`. -/
def get_waiting_state (s : ConversationState) : Option String := s.waiting_for

/-- Environment with the chat credential and recipient id set but no
note-store base URL. -/
def envMissingCraftUrl : Env :=
  { DISCORD_BOT_TOKEN := some "token-abc", DISCORD_USER_ID := some "123",
    CRAFT_API_URL := none, TIMEZONE := none }

/-- Environment missing only the chat bot credential. -/
def envMissingToken : Env :=
  { DISCORD_BOT_TOKEN := none, DISCORD_USER_ID := some "123",
    CRAFT_API_URL := some "http://x", TIMEZONE := none }

/-- Environment missing only the authorized recipient identifier. -/
def envMissingUserId : Env :=
  { DISCORD_BOT_TOKEN := some "t", DISCORD_USER_ID := none,
    CRAFT_API_URL := some "http://x", TIMEZONE := none }

/-- The fixed morning prompt sent by `scheduler.send_morning_checkin` and by
the `/morning` command handler in main.py. -/
def morningPrompt : String :=
  "Good morning! 🌅\n\nDid you complete your morning routine today?\n\nPlease share how it went!"

/-- The fixed evening prompt sent by `scheduler.send_evening_checkin` and by
the `/evening` command handler in main.py. -/
def eveningPrompt : String :=
  "Evening check-in! 💪\n\nDid you get your exercise in today?\n\nLet me know how it went!"

/-- Outcome of the fetch-user-and-send-DM sequence inside the scheduler's
check-in senders: delivered; `fetch_user` returned a falsy user (line 48);
`discord.Forbidden`; `discord.HTTPException`; or any other exception. -/
inductive DeliveryOutcome where
  | delivered
  | userNotFound
  | forbidden
  | httpError (msg : String)
  | unexpectedError (msg : String)
deriving DecidableEq

/-- `scheduler.send_morning_checkin`: only when the DM send succeeds is
`set_waiting_for_checkin('morning')` reached; a falsy user returns early and
each except clause only logs, so the state is untouched and no outbound
message is delivered on any failure path. -/
def send_morning_checkin (now : Nat) (outcome : DeliveryOutcome)
    (s : ConversationState) : ConversationState × List String :=
  match outcome with
  | DeliveryOutcome.delivered =>
    (set_waiting_for_checkin now "morning" s, [morningPrompt])
  | DeliveryOutcome.userNotFound => (s, [])
  | DeliveryOutcome.forbidden => (s, [])
  | DeliveryOutcome.httpError _ => (s, [])
  | DeliveryOutcome.unexpectedError _ => (s, [])

/-- `scheduler.send_evening_checkin`: same shape as the morning sender with
the evening prompt and `set_waiting_for_checkin('evening')`. -/
def send_evening_checkin (now : Nat) (outcome : DeliveryOutcome)
    (s : ConversationState) : ConversationState × List String :=
  match outcome with
  | DeliveryOutcome.delivered =>
    (set_waiting_for_checkin now "evening" s, [eveningPrompt])
  | DeliveryOutcome.userNotFound => (s, [])
  | DeliveryOutcome.forbidden => (s, [])
  | DeliveryOutcome.httpError _ => (s, [])
  | DeliveryOutcome.unexpectedError _ => (s, [])

/-- A local wall-clock instant in the configured time zone: a day index and
minutes since midnight. `datetime.replace(hour=h, minute=m, ...)` keeps the
day and sets the minutes; adding `timedelta(days=1)` increments the day. -/
structure LocalDateTime where
  day : Nat
  minute : Nat
deriving DecidableEq

/-- Total minutes, the order used by datetime comparison on instants in the
same time zone. -/
def toMin (t : LocalDateTime) : Nat := t.day * 1440 + t.minute

/-- The two daily check-in slots. -/
inductive Slot where
  | morning
  | evening
deriving DecidableEq

/-- `scheduler.get_next_checkin_time` (lines 163-198), with the closing
`strftime` rendering elided: today's 07:00 (420 minutes) and 17:30 (1050
minutes) are each rolled forward one day when strictly in the past, and the
strictly-smaller candidate picks the morning slot. -/
def get_next_checkin_time (now : LocalDateTime) : Slot × LocalDateTime :=
  let morning0 : LocalDateTime := { day := now.day, minute := 420 }
  let morning :=
    if toMin now > toMin morning0 then { day := now.day + 1, minute := 420 }
    else morning0
  let evening0 : LocalDateTime := { day := now.day, minute := 1050 }
  let evening :=
    if toMin now > toMin evening0 then { day := now.day + 1, minute := 1050 }
    else evening0
  if toMin morning < toMin evening then (Slot.morning, morning)
  else (Slot.evening, evening)

/-- The check-in label used by `get_next_checkin_time`'s reply. -/
def slotLabel : Slot → String
  | Slot.morning => "Morning routine"
  | Slot.evening => "Exercise"

/-- Rendering of the next check-in reply string; the `strftime` date
formatting of the source is abstracted to the day index and minute. -/
def renderNextCheckin (r : Slot × LocalDateTime) : String :=
  "**" ++ slotLabel r.1 ++ "** check-in\nday " ++ toString r.2.day ++
    ", minute " ++ toString r.2.minute

/-- Confirmation sent by `CoachBot.process_checkin_response` on publish
success. -/
def confirmationMessage : String := "Got it! Added to your Craft daily note ✅"

/-- Degraded-success notice sent by `CoachBot.process_checkin_response` when
`write_to_daily_note` returns False. -/
def degradedMessage : String :=
  "Received your response, but there was an issue writing to Craft. I\x27ll log it for troubleshooting."

/-- Generic apology sent by `CoachBot.process_checkin_response` when an
unexpected exception is caught. -/
def genericErrorMessage : String :=
  "Sorry, I encountered an error processing your response. Please check the logs."

/-- Outcome of the `write_to_daily_note` call as seen by
`CoachBot.process_checkin_response`: the returned bool, or a raised
exception caught by its except clause. -/
inductive PublishOutcome where
  | success
  | failure
  | raised (msg : String)
deriving DecidableEq

/-- `CoachBot.process_checkin_response` (main.py lines 152-180): on success
clear the waiting state and send the confirmation; on a False return send
the degraded notice and clear; on an exception send the generic error notice
and clear. All three paths disarm and send exactly one message. -/
def process_checkin_response (outcome : PublishOutcome)
    (s : ConversationState) : ConversationState × List String :=
  match outcome with
  | PublishOutcome.success => (clear_waiting_state s, [confirmationMessage])
  | PublishOutcome.failure => (clear_waiting_state s, [degradedMessage])
  | PublishOutcome.raised _ => (clear_waiting_state s, [genericErrorMessage])

/-- Reply of the `/status` command: main.py renders the string returned by
`get_next_checkin_time` (always non-empty, so the else branch of the source
is unreachable). -/
def statusReply (nowLocal : LocalDateTime) : String :=
  "📅 **Status**\n\nNext scheduled check-in:\n" ++
    renderNextCheckin (get_next_checkin_time nowLocal)

/-- Reply of the `/help` command. -/
def helpMessage : String :=
  "🤖 **Coach Bot - Available Commands**\n\n**Manual Check-ins:**\n`/morning` - Start morning routine check-in\n`/evening` - Start exercise check-in\n\n**Info:**\n`/status` - Show next scheduled check-in\n`/help` - Show this help message\n\n**Scheduled Check-ins:**\n• Morning: 7:00 AM MT\n• Evening: 5:30 PM MT\n\nYour responses are automatically saved to your Craft daily notes!"

/-- `CoachBot.handle_command` (main.py lines 92-150): dispatch on the first
whitespace-separated token of the lowercased text. Manual `/morning` and
`/evening` arm the state and send the prompt; `/status`, `/help` and the
unknown-command fallback reply without touching the state. -/
def handle_command (nowT : Nat) (nowLocal : LocalDateTime) (content : String)
    (s : ConversationState) : ConversationState × List String :=
  let command := headToken (pyLower content)
  if command = "/morning" then
    (set_waiting_for_checkin nowT "morning" s, [morningPrompt])
  else if command = "/evening" then
    (set_waiting_for_checkin nowT "evening" s, [eveningPrompt])
  else if command = "/status" then (s, [statusReply nowLocal])
  else if command = "/help" then (s, [helpMessage])
  else
    (s, ["Unknown command: " ++ command ++
      "\n\nTry `/help` to see available commands."])

/-- Greeting reply of `CoachBot.handle_casual_message`. -/
def greetingReply : String :=
  "Hey there! 👋\n\nI\x27m your daily check-in coach. I\x27ll message you at:\n• 7:00 AM for your morning routine\n• 5:30 PM for your exercise\n\nWant to do a check-in now? Try `/morning` or `/evening`\nNeed help? Send `/help`"

/-- Thanks reply of `CoachBot.handle_casual_message`. -/
def thanksReply : String := "You\x27re welcome! Keep up the great work! 💪"

/-- Fallback reply of `CoachBot.handle_casual_message`. -/
def fallbackReply : String :=
  "I\x27m here to help with your daily check-ins!\n\nTry:\n• `/morning` - Morning routine check-in\n• `/evening` - Exercise check-in\n• `/help` - See all commands\n\nOr just wait for my scheduled messages at 7 AM and 5:30 PM! ⏰"

/-- `CoachBot.handle_casual_message` (main.py lines 182-219). -/
def handle_casual_message (content : String) (s : ConversationState) :
    ConversationState × List String :=
  let content_lower := pyLower content
  if content_lower = "hi" ∨ content_lower = "hello" ∨ content_lower = "hey" ∨
      content_lower = "yo" ∨ content_lower = "sup" then
    (s, [greetingReply])
  else if strContains content_lower "thanks" ||
      strContains content_lower "thank you" ||
      strContains content_lower "thx" then
    (s, [thanksReply])
  else (s, [fallbackReply])

/-- One inbound chat message as seen by `CoachBot.on_message`: whether the
author is the bot itself, whether the channel is a DM channel, the author's
numeric id, and the text. -/
structure InboundMessage where
  author_is_self : Bool
  is_dm_channel : Bool
  author_id : Int
  content : String
deriving DecidableEq

/-- `CoachBot.on_message` (main.py lines 59-90): drop the bot's own
messages, non-DM messages, and DMs from any id other than the configured
`DISCORD_USER_ID` (each dropped path sends nothing and touches no state);
otherwise strip the text and route it to the command handler, the pending
check-in handler, or the casual handler. The clock readings and the publish
outcome consumed downstream are explicit parameters. -/
def on_message (discord_user_id : Int) (nowT : Nat) (nowLocal : LocalDateTime)
    (publish : PublishOutcome) (msg : InboundMessage) (s : ConversationState) :
    ConversationState × List String :=
  if msg.author_is_self then (s, [])
  else if !msg.is_dm_channel then (s, [])
  else if msg.author_id ≠ discord_user_id then (s, [])
  else
    let content := pyStrip msg.content
    if startsWithChars "/".data content.data then
      handle_command nowT nowLocal content s
    else
      match get_waiting_state s with
      | some _ => process_checkin_response publish s
      | none => handle_casual_message content s

theorem string_append_assoc (a b c : String) : a ++ b ++ c = a ++ (b ++ c) := by
  apply String.ext
  simp [String.data_append, List.append_assoc]

/-- C1 (counterexample): status 204 lies in the 2xx range, yet
`write_to_daily_note` reports failure for it, so success is not "any 2xx
status" — the source accepts exactly 200 and 201. -/
theorem c1_counterexample :
    (200 ≤ 204 ∧ 204 < 300) ∧
    write_to_daily_note (some "http://x") (HttpOutcome.response 204 "No Content")
      "07:00 AM" "ok" "morning" = false := by
  decide

/-- C1 (amended): with a configured note-store URL, `write_to_daily_note`
returns success exactly when the HTTP response status is 200 or 201; any
other response status (including other 2xx codes), a timeout, a transport
error and an unexpected exception all yield the failure value — the
embedding is a total function into Bool, so no failure mode escapes as an
exception. -/
theorem c1_publish_success_iff (url : String) (h : url ≠ "")
    (outcome : HttpOutcome) (ts content kind : String) :
    write_to_daily_note (some url) outcome ts content kind = true ↔
      ∃ status text, outcome = HttpOutcome.response status text ∧
        (status = 200 ∨ status = 201) := by
  cases outcome <;> simp [write_to_daily_note, pyFalsy, h]

/-- C1 witness: a concrete configured URL and a 200 response publish
successfully. -/
theorem c1_publish_success_iff_witness :
    write_to_daily_note (some "http://x") (HttpOutcome.response 200 "ok")
      "07:00 AM" "done" "morning" = true :=
  (c1_publish_success_iff "http://x" (by decide) (HttpOutcome.response 200 "ok")
    "07:00 AM" "done" "morning").mpr ⟨200, "ok", rfl, Or.inl rfl⟩

/-- C2 (counterexample): with the note-store base URL missing from the
environment, module-level startup validation still succeeds — the process
starts, contradicting the claim that every required setting is checked
fatally at startup. -/
theorem c2_counterexample :
    envMissingCraftUrl.CRAFT_API_URL = none ∧
    startup envMissingCraftUrl = Except.ok 123 :=
  ⟨rfl, rfl⟩

/-- C2 (amended): a missing chat bot credential or a missing authorized
recipient identifier makes startup raise and the process does not start,
but a missing note-store base URL does not prevent startup; instead every
publish call observes the missing URL and returns failure at call time. -/
theorem c2_startup_validation (env : Env) (outcome : HttpOutcome)
    (ts content kind : String) :
    (pyFalsy env.DISCORD_BOT_TOKEN = true →
      ∃ msg, startup env = Except.error msg) ∧
    (pyFalsy env.DISCORD_USER_ID = true →
      ∃ msg, startup env = Except.error msg) ∧
    (pyFalsy env.CRAFT_API_URL = true →
      write_to_daily_note env.CRAFT_API_URL outcome ts content kind = false) := by
  refine ⟨?_, ?_, ?_⟩
  · intro h
    unfold startup
    by_cases h2 : pyFalsy env.DISCORD_USER_ID = true
    · rw [if_pos h2]; exact ⟨_, rfl⟩
    · rw [if_neg h2]
      cases hp : pyInt? (env.DISCORD_USER_ID.getD "") with
      | none => exact ⟨_, rfl⟩
      | some uid =>
        exact ⟨"DISCORD_BOT_TOKEN not found in environment variables",
          by simp [h]⟩
  · intro h
    unfold startup
    rw [if_pos h]
    exact ⟨_, rfl⟩
  · intro h
    unfold write_to_daily_note
    rw [if_pos h]

/-- C2 witness: concrete environments missing the credential, missing the
recipient id, and missing the note-store URL. -/
theorem c2_startup_validation_witness :
    (∃ msg, startup envMissingToken = Except.error msg) ∧
    (∃ msg, startup envMissingUserId = Except.error msg) ∧
    write_to_daily_note none HttpOutcome.timeout "07:00 AM" "hi" "morning" = false :=
  ⟨(c2_startup_validation envMissingToken HttpOutcome.timeout
      "07:00 AM" "hi" "morning").1 (by decide),
   (c2_startup_validation envMissingUserId HttpOutcome.timeout
      "07:00 AM" "hi" "morning").2.1 (by decide),
   (c2_startup_validation envMissingCraftUrl HttpOutcome.timeout
      "07:00 AM" "hi" "morning").2.2 (by decide)⟩

/-- C3: the morning formatter infers the status over the lowercased text
with the exact precedence "yes"-without-"no" giving Yes, else "partial"
giving Partial, else "no" giving No, else no status line; in particular
"yes but no time" yields No, "partial effort" yields Partial, and "nope"
yields No. -/
theorem c3_morning_status_precedence (ts content : String) :
    (format_check_in_content ts content "morning" =
      "## Morning Check-in (" ++ ts ++ ")\n" ++
        (if strContains (pyLower content) "yes" = true ∧
            strContains (pyLower content) "no" = false then
          "**Routine completion:** Yes\n"
         else if strContains (pyLower content) "partial" = true then
          "**Routine completion:** Partial\n"
         else if strContains (pyLower content) "no" = true then
          "**Routine completion:** No\n"
         else "") ++ content) ∧
    morning_status "yes but no time" = "No" ∧
    morning_status "partial effort" = "Partial" ∧
    morning_status "nope" = "No" := by
  refine ⟨?_, by decide, by decide, by decide⟩
  unfold format_check_in_content morning_status
  rw [if_pos rfl]
  by_cases h1 : strContains (pyLower content) "yes" = true <;>
  by_cases h2 : strContains (pyLower content) "no" = true <;>
  by_cases h3 : strContains (pyLower content) "partial" = true <;>
  simp [h1, h2, h3, string_append_assoc]

/-- C4: the next-check-in query rolls today's 07:00 and 17:30 forward a day
once strictly past and returns the sooner slot: at or before 07:00 it is
today's morning slot (so the 07:00 tie goes to morning), strictly between
07:00 and 17:30 inclusive it is today's evening slot, and after 17:30 it is
tomorrow's morning slot; in particular 07:00 gives morning, 08:00 gives
evening, 06:00 gives morning. -/
theorem c4_next_checkin (now : LocalDateTime) :
    (now.minute ≤ 420 →
      get_next_checkin_time now =
        (Slot.morning, { day := now.day, minute := 420 })) ∧
    (420 < now.minute → now.minute ≤ 1050 →
      get_next_checkin_time now =
        (Slot.evening, { day := now.day, minute := 1050 })) ∧
    (1050 < now.minute →
      get_next_checkin_time now =
        (Slot.morning, { day := now.day + 1, minute := 420 })) ∧
    get_next_checkin_time { day := 0, minute := 420 } =
      (Slot.morning, { day := 0, minute := 420 }) ∧
    get_next_checkin_time { day := 0, minute := 480 } =
      (Slot.evening, { day := 0, minute := 1050 }) ∧
    get_next_checkin_time { day := 0, minute := 360 } =
      (Slot.morning, { day := 0, minute := 420 }) := by
  refine ⟨?_, ?_, ?_, by decide, by decide, by decide⟩
  · intro h
    have hm : ¬ toMin now > toMin { day := now.day, minute := 420 } := by
      simp [toMin]; omega
    have he : ¬ toMin now > toMin { day := now.day, minute := 1050 } := by
      simp [toMin]; omega
    have hc : toMin { day := now.day, minute := 420 } <
        toMin { day := now.day, minute := 1050 } := by
      simp [toMin]
    simp [get_next_checkin_time, hm, he, hc]
  · intro h1 h2
    have hm : toMin now > toMin { day := now.day, minute := 420 } := by
      simp [toMin]; omega
    have he : ¬ toMin now > toMin { day := now.day, minute := 1050 } := by
      simp [toMin]; omega
    have hc : ¬ toMin { day := now.day + 1, minute := 420 } <
        toMin { day := now.day, minute := 1050 } := by
      simp [toMin]; omega
    simp [get_next_checkin_time, hm, he, hc]
  · intro h
    have hm : toMin now > toMin { day := now.day, minute := 420 } := by
      simp [toMin]; omega
    have he : toMin now > toMin { day := now.day, minute := 1050 } := by
      simp [toMin]; omega
    have hc : toMin { day := now.day + 1, minute := 420 } <
        toMin { day := now.day + 1, minute := 1050 } := by
      simp [toMin]
    simp [get_next_checkin_time, hm, he, hc]

/-- C4 witness: concrete times 06:00, 08:00 and 18:20 exercise the three
cases. -/
theorem c4_next_checkin_witness :
    get_next_checkin_time { day := 0, minute := 360 } =
      (Slot.morning, { day := 0, minute := 420 }) ∧
    get_next_checkin_time { day := 0, minute := 480 } =
      (Slot.evening, { day := 0, minute := 1050 }) ∧
    get_next_checkin_time { day := 0, minute := 1100 } =
      (Slot.morning, { day := 1, minute := 420 }) :=
  ⟨(c4_next_checkin { day := 0, minute := 360 }).1 (by decide),
   (c4_next_checkin { day := 0, minute := 480 }).2.1 (by decide) (by decide),
   (c4_next_checkin { day := 0, minute := 1100 }).2.2.1 (by decide)⟩

/-- C5: processing a pending check-in reply always leaves the state
disarmed and sends exactly one message, whichever of the three publish
outcomes occurred: the confirmation on success, the degraded notice on
failure, the generic error notice on an unexpected exception. -/
theorem c5_disarm_and_single_reply (s : ConversationState)
    (outcome : PublishOutcome) :
    ((process_checkin_response outcome s).1.waiting_for = none) ∧
    ((process_checkin_response outcome s).2.length = 1) ∧
    (process_checkin_response PublishOutcome.success s).2 =
      [confirmationMessage] ∧
    (process_checkin_response PublishOutcome.failure s).2 =
      [degradedMessage] ∧
    (∀ msg, (process_checkin_response (PublishOutcome.raised msg) s).2 =
      [genericErrorMessage]) := by
  refine ⟨?_, ?_, rfl, rfl, fun msg => rfl⟩ <;> cases outcome <;> rfl

/-- C6: a scheduled firing arms the conversation state only on a confirmed
send: every failed fetch-or-send outcome leaves the state untouched and
delivers nothing, while a delivered prompt arms the matching kind. -/
theorem c6_arm_only_on_confirmed_send (now : Nat) (outcome : DeliveryOutcome)
    (s : ConversationState) (h : outcome ≠ DeliveryOutcome.delivered) :
    send_morning_checkin now outcome s = (s, []) ∧
    send_evening_checkin now outcome s = (s, []) ∧
    (send_morning_checkin now DeliveryOutcome.delivered s).1.waiting_for =
      some "morning" ∧
    (send_evening_checkin now DeliveryOutcome.delivered s).1.waiting_for =
      some "evening" := by
  refine ⟨?_, ?_, rfl, rfl⟩ <;> cases outcome <;>
    first | rfl | exact absurd rfl h

/-- C6 witness: a forbidden DM send leaves an unarmed state unarmed. -/
theorem c6_arm_only_on_confirmed_send_witness :
    send_morning_checkin 0 DeliveryOutcome.forbidden
      { waiting_for := none, last_check_in_time := none } =
      ({ waiting_for := none, last_check_in_time := none }, []) ∧
    send_evening_checkin 0 DeliveryOutcome.forbidden
      { waiting_for := none, last_check_in_time := none } =
      ({ waiting_for := none, last_check_in_time := none }, []) ∧
    (send_morning_checkin 0 DeliveryOutcome.delivered
      { waiting_for := none, last_check_in_time := none }).1.waiting_for =
      some "morning" ∧
    (send_evening_checkin 0 DeliveryOutcome.delivered
      { waiting_for := none, last_check_in_time := none }).1.waiting_for =
      some "evening" :=
  c6_arm_only_on_confirmed_send 0 DeliveryOutcome.forbidden
    { waiting_for := none, last_check_in_time := none } (by decide)

/-- C7: the evening formatter infers Yes for "yes"-without-"no", else No
for "no", else leaves the status line absent — there is no partial branch,
so a reply containing only "partial" gets no status line while its body is
still appended; "Yes, 5k run" gives Yes, "no time today" gives No, "maybe
later" gives no status. -/
theorem c7_evening_status (ts content : String) :
    (format_check_in_content ts content "evening" =
      "## Exercise Check-in (" ++ ts ++ ")\n" ++
        (if strContains (pyLower content) "yes" = true ∧
            strContains (pyLower content) "no" = false then "**Workout:** Yes\n"
         else if strContains (pyLower content) "no" = true then "**Workout:** No\n"
         else "") ++ content) ∧
    evening_status "Yes, 5k run" = "Yes" ∧
    evening_status "no time today" = "No" ∧
    evening_status "maybe later" = "" ∧
    format_check_in_content ts "partial" "evening" =
      "## Exercise Check-in (" ++ ts ++ ")\n" ++ "partial" := by
  refine ⟨?_, by decide, by decide, by decide, ?_⟩
  · unfold format_check_in_content evening_status
    rw [if_neg (by decide : ¬ ("evening" : String) = "morning"), if_pos rfl]
    by_cases h1 : strContains (pyLower content) "yes" = true <;>
    by_cases h2 : strContains (pyLower content) "no" = true <;>
    simp [h1, h2, string_append_assoc]
  · have h : evening_status "partial" = "" := by decide
    unfold format_check_in_content
    rw [if_neg (by decide : ¬ ("evening" : String) = "morning"), if_pos rfl]
    simp [h]

/-- C8: for any check-in kind other than "morning" and "evening" the
formatter returns the raw text unchanged. -/
theorem c8_identity_passthrough (ts content kind : String)
    (h1 : kind ≠ "morning") (h2 : kind ≠ "evening") :
    format_check_in_content ts content kind = content := by
  unfold format_check_in_content
  rw [if_neg h1, if_neg h2]

/-- C8 witness: the kind "weekly" passes text through unchanged. -/
theorem c8_identity_passthrough_witness :
    format_check_in_content "07:00 AM" "raw text" "weekly" = "raw text" :=
  c8_identity_passthrough "07:00 AM" "raw text" "weekly" (by decide) (by decide)

/-- C9: a message that is not a DM, or whose author id differs from the
configured recipient id, produces no outbound reply and leaves the
conversation state (both fields) unchanged. -/
theorem c9_unauthorized_dropped (uid : Int) (nowT : Nat)
    (nowLocal : LocalDateTime) (publish : PublishOutcome)
    (msg : InboundMessage) (s : ConversationState)
    (h : msg.is_dm_channel = false ∨ msg.author_id ≠ uid) :
    on_message uid nowT nowLocal publish msg s = (s, []) := by
  unfold on_message
  rcases h with h | h
  · simp [h]
  · by_cases hself : msg.author_is_self
    · simp [hself]
    · by_cases hdm : msg.is_dm_channel
      · simp [hself, hdm, h]
      · simp [hself, hdm]

/-- C9 witness: an armed state survives a DM from the wrong author id with
no reply sent. -/
theorem c9_unauthorized_dropped_witness :
    on_message 5 0 { day := 0, minute := 0 } PublishOutcome.success
      { author_is_self := false, is_dm_channel := true, author_id := 7,
        content := "hello" }
      { waiting_for := some "morning", last_check_in_time := some 3 } =
      ({ waiting_for := some "morning", last_check_in_time := some 3 }, []) :=
  c9_unauthorized_dropped 5 0 { day := 0, minute := 0 } PublishOutcome.success
    { author_is_self := false, is_dm_channel := true, author_id := 7,
      content := "hello" }
    { waiting_for := some "morning", last_check_in_time := some 3 }
    (Or.inr (by decide))

/-- C10: disarming resets only the waiting flag and preserves the armed-at
timestamp, while arming sets both the kind and the timestamp. -/
theorem c10_disarm_preserves_timestamp (s : ConversationState) (now : Nat)
    (kind : String) :
    (clear_waiting_state s).waiting_for = none ∧
    (clear_waiting_state s).last_check_in_time = s.last_check_in_time ∧
    (set_waiting_for_checkin now kind s).waiting_for = some kind ∧
    (set_waiting_for_checkin now kind s).last_check_in_time = some now :=
  ⟨rfl, rfl, rfl, rfl⟩
